import Mathlib

/-!
Shallow embedding of the RenderFlow render service: the composition
registry, the dimension table, the render queue, the bundle manager and
the per-job processor, together with the operations that the
specification claims talk about.  Job identifiers, callback handles and
build identifiers are modelled as natural numbers supplied by the
environment; timestamps are logical ticks.  JavaScript truthiness on
numbers and strings is modelled explicitly (0 and the empty string are
falsy).
-/

namespace RenderFlow

/-- Decidable equality for `Except`, needed to evaluate claims about
fallible operations on concrete inputs. -/
instance {ε α : Type} [DecidableEq ε] [DecidableEq α] : DecidableEq (Except ε α) :=
  fun x y =>
    match x, y with
    | .ok a, .ok b =>
        if h : a = b then isTrue (by rw [h])
        else isFalse (by intro hc; injection hc; contradiction)
    | .error a, .error b =>
        if h : a = b then isTrue (by rw [h])
        else isFalse (by intro hc; injection hc; contradiction)
    | .ok _, .error _ => isFalse (by intro hc; cases hc)
    | .error _, .ok _ => isFalse (by intro hc; cases hc)

/-- Models the JavaScript expression `v || d` for an optional number:
`undefined` and `0` both fall back to the default. -/
def numOr (v : Option Nat) (d : Nat) : Nat :=
  match v with
  | none => d
  | some n => if n = 0 then d else n

/-- Models the JavaScript expression `v || d` (or the equivalent ternary)
for an optional string: `undefined` and the empty string are falsy. -/
def strOr (v : Option String) (d : String) : String :=
  match v with
  | none => d
  | some s => if s = "" then d else s

/-- Association-list read, modelling `Map.get`. -/
def alistGet {α : Type} : List (Nat × α) → Nat → Option α
  | [], _ => none
  | (k, v) :: rest, key => if k = key then some v else alistGet rest key

/-- Association-list write, modelling `Map.set`: replaces in place when the
key is present, appends otherwise. -/
def alistSet {α : Type} : List (Nat × α) → Nat → α → List (Nat × α)
  | [], key, v => [(key, v)]
  | (k, w) :: rest, key, v =>
      if k = key then (key, v) :: rest else (k, w) :: alistSet rest key v

/-- Models `Set.add` on a JavaScript `Set` kept in insertion order. -/
def setAdd (l : List Nat) (x : Nat) : List Nat :=
  if x ∈ l then l else l ++ [x]

/-- Models `Set.delete`. -/
def setDelete (l : List Nat) (x : Nat) : List Nat :=
  l.filter (fun y => y ≠ x)

/-- Models `listeners.splice(listeners.indexOf(cb), 1)` guarded by
`indexOf > -1`: removes the first occurrence of the callback handle,
leaving the list unchanged when the handle is absent. -/
def unsubOnce : List Nat → Nat → List Nat
  | [], _ => []
  | c :: rest, cb => if c = cb then rest else c :: unsubOnce rest cb

/-- Models `path.join` as separator concatenation (normalisation of the
leading dot segment is irrelevant to the claims). -/
def pathJoin (dir file : String) : String := dir ++ "/" ++ file

/-- Models `Math.round(fraction * 100)` on a non-negative engine progress
fraction. -/
def jsRoundPct (q : ℚ) : Int := Int.floor (q * 100 + 1/2)

/-! ## Theme module: aspect ratios and pixel dimensions -/

/-- Aspect ratios supported by the theme module. -/
inductive AspectRatio where
  | landscape
  | portrait
  | square
deriving DecidableEq

/-- One entry of the dimension table of the theme module. -/
structure DimensionConfig where
  width : Nat
  height : Nat
  aspectRatio : AspectRatio
deriving DecidableEq

/-- The DIMENSIONS table of the theme module. -/
def DIMENSIONS : AspectRatio → DimensionConfig
  | .landscape => ⟨1920, 1080, .landscape⟩
  | .portrait => ⟨1080, 1920, .portrait⟩
  | .square => ⟨1080, 1080, .square⟩

/-! ## Composition registry -/

/-- Metadata of one registered composition. -/
structure CompositionMeta where
  id : String
  name : String
  description : String
  category : String
  defaultDuration : Nat
  contentTypes : List String
  formats : List String
deriving DecidableEq

/-- The entries of the COMPOSITIONS object literal, in source order. -/
def COMPOSITIONS_list : List (String × CompositionMeta) :=
  [ ("EventPromo",
      ⟨"EventPromo", "Event Promo", "Single event spotlight with animated details",
        "promo", 10, ["event"], ["landscape", "portrait", "square"]⟩),
    ("EventReel",
      ⟨"EventReel", "Event Reel", "Multiple events rotating through with transitions",
        "promo", 30, ["event"], ["landscape", "portrait", "square"]⟩),
    ("ProductBoard",
      ⟨"ProductBoard", "Product Board", "Menu or product grid display",
        "menu", 15, ["product"], ["landscape", "portrait", "square"]⟩),
    ("StatsDashboard",
      ⟨"StatsDashboard", "Stats Dashboard", "Animated statistics display with counters",
        "stats", 8, ["stat"], ["landscape", "portrait", "square"]⟩),
    ("Branding",
      ⟨"Branding", "Branding", "Logo reveal with various effects",
        "branding", 5, ["media"], ["landscape", "portrait", "square"]⟩),
    ("Alert",
      ⟨"Alert", "Alert", "Announcement or alert banner",
        "alert", 6, ["message"], ["landscape", "portrait", "square"]⟩) ]

/-- Lookup `COMPOSITIONS[compositionId]`, returning `none` for an unknown
composition identifier. -/
def COMPOSITIONS (compositionId : String) : Option CompositionMeta :=
  (COMPOSITIONS_list.find? (fun p => p.1 == compositionId)).map (fun p => p.2)

/-! ## Job data model -/

/-- The RenderStatus union type. -/
inductive RenderStatus where
  | queued
  | bundling
  | rendering
  | encoding
  | completed
  | failed
  | cancelled
deriving DecidableEq

/-- The quality tier union type. -/
inductive Quality where
  | draft
  | standard
  | high
deriving DecidableEq

/-- One quality preset (encoder settings). -/
structure QualityPreset where
  crf : Nat
  codec : String
deriving DecidableEq

/-- The QUALITY_PRESETS table. -/
def QUALITY_PRESETS : Quality → QualityPreset
  | .draft => ⟨28, "h264"⟩
  | .standard => ⟨20, "h264"⟩
  | .high => ⟨15, "h264"⟩

/-- The RenderJobInput interface.  The composition identifier is a raw
string because validation happens at `createJob` time. -/
structure RenderJobInput where
  compositionId : String
  inputProps : List (String × String) := []
  format : Option AspectRatio := none
  duration : Option Nat := none
  fps : Option Nat := none
  quality : Option Quality := none
  outputPath : Option String := none
  outputFilename : Option String := none
deriving DecidableEq

/-- The RenderJob record as constructed by `createJob`. -/
structure RenderJob where
  id : Nat
  compositionId : String
  inputProps : List (String × String)
  format : AspectRatio
  duration : Nat
  fps : Nat
  quality : Quality
  outputFilename : Option String
  status : RenderStatus
  progress : Int
  error : Option String
  outputPath : String
  thumbnailPath : Option String
  createdAt : Nat
  startedAt : Option Nat
  completedAt : Option Nat
deriving DecidableEq

/-- The progress snapshot sent to subscribers by `notifyProgress`. -/
structure RenderProgress where
  jobId : Nat
  status : RenderStatus
  progress : Int
deriving DecidableEq

/-- A `Partial<RenderJob>` as passed to `update`: a field is present in
the update exactly when its option is `some`.  For `thumbnailPath` the
inner option models a present-but-undefined value. -/
structure JobUpdate where
  status : Option RenderStatus := none
  progress : Option Int := none
  error : Option String := none
  thumbnailPath : Option (Option String) := none
  startedAt : Option Nat := none
  completedAt : Option Nat := none
deriving DecidableEq

/-- Models `Object.assign(job, updates)`. -/
def applyUpdate (job : RenderJob) (u : JobUpdate) : RenderJob :=
  { job with
    status := u.status.getD job.status
    progress := u.progress.getD job.progress
    error := match u.error with
      | some e => some e
      | none => job.error
    thumbnailPath := u.thumbnailPath.getD job.thumbnailPath
    startedAt := match u.startedAt with
      | some t => some t
      | none => job.startedAt
    completedAt := match u.completedAt with
      | some t => some t
      | none => job.completedAt }

/-! ## Render queue -/

/-- The RenderQueue class state: job map, pending identifier list (FIFO),
processing set, concurrency cap and per-job listener lists. -/
structure RenderQueue where
  jobs : List (Nat × RenderJob)
  queue : List Nat
  processing : List Nat
  maxConcurrent : Nat
  listeners : List (Nat × List Nat)
deriving DecidableEq

/-- A fresh queue with the given concurrency cap. -/
def RenderQueue.empty (maxConcurrent : Nat) : RenderQueue :=
  ⟨[], [], [], maxConcurrent, []⟩

/-- `add(job)`: stores the job in the map and appends its identifier to
the pending list. -/
def RenderQueue.add (q : RenderQueue) (job : RenderJob) : RenderQueue :=
  { q with jobs := alistSet q.jobs job.id job, queue := q.queue ++ [job.id] }

/-- `get(jobId)`. -/
def RenderQueue.get (q : RenderQueue) (jobId : Nat) : Option RenderJob :=
  alistGet q.jobs jobId

/-- `canProcess()`: true iff a concurrency slot is free and a job is
pending. -/
def RenderQueue.canProcess (q : RenderQueue) : Bool :=
  decide (q.processing.length < q.maxConcurrent) && decide (0 < q.queue.length)

/-- `dequeue()`: shifts the oldest pending identifier, adds it to the
processing set and returns the job looked up in the map. -/
def RenderQueue.dequeue (q : RenderQueue) : Option RenderJob × RenderQueue :=
  match q.queue with
  | [] => (none, q)
  | jobId :: rest =>
      (alistGet q.jobs jobId,
       { q with queue := rest, processing := setAdd q.processing jobId })

/-- `complete(jobId)`: frees the concurrency slot. -/
def RenderQueue.complete (q : RenderQueue) (jobId : Nat) : RenderQueue :=
  { q with processing := setDelete q.processing jobId }

/-- Current listener list of one job (`listeners.get(jobId) || []`). -/
def listenersOf (q : RenderQueue) (jobId : Nat) : List Nat :=
  (alistGet q.listeners jobId).getD []

/-- `subscribe(jobId, cb)`: ensures a listener list exists and pushes the
callback handle.  The returned unsubscribe closure is modelled by
`RenderQueue.unsubscribeOp`. -/
def RenderQueue.subscribeOp (q : RenderQueue) (jobId cb : Nat) : RenderQueue :=
  { q with listeners := alistSet q.listeners jobId (listenersOf q jobId ++ [cb]) }

/-- The closure returned by `subscribe`: removes the first occurrence of
the callback handle from the listener list of the job, if any. -/
def RenderQueue.unsubscribeOp (q : RenderQueue) (jobId cb : Nat) : RenderQueue :=
  match alistGet q.listeners jobId with
  | none => q
  | some l => { q with listeners := alistSet q.listeners jobId (unsubOnce l cb) }

/-- `update(jobId, updates)`: merges the fields into the job record and
returns the synchronous notifications `(callback, snapshot)` sent to the
subscribers of that job. -/
def RenderQueue.updateOp (q : RenderQueue) (jobId : Nat) (u : JobUpdate) :
    RenderQueue × List (Nat × RenderProgress) :=
  match alistGet q.jobs jobId with
  | none => (q, [])
  | some job =>
      let job2 := applyUpdate job u
      ({ q with jobs := alistSet q.jobs jobId job2 },
       (listenersOf q jobId).map (fun cb => (cb, ⟨jobId, job2.status, job2.progress⟩)))

/-- The `processQueue` drain loop: while `canProcess()`, dequeue a job and
start processing it.  The fuel argument bounds the iteration; the pending
list length is always sufficient fuel.  Returns the final queue and the
identifiers of the jobs whose processing was started, in start order. -/
def drain : Nat → RenderQueue → RenderQueue × List Nat
  | 0, q => (q, [])
  | Nat.succ n, q =>
      if q.canProcess then
        match q.dequeue with
        | (none, q2) => (q2, [])
        | (some job, q2) =>
            ((drain n q2).1, job.id :: (drain n q2).2)
      else (q, [])

/-- `processQueue()` as the re-entrancy-guarded drain loop (the guard flag
only shields against nested synchronous re-entry, so a single invocation
behaves as the plain loop). -/
def RenderQueue.processQueue (q : RenderQueue) : RenderQueue × List Nat :=
  drain q.queue.length q

/-! ## Render service: configuration and bundle manager -/

/-- The RenderServiceConfig interface, with the DEFAULT_CONFIG values as
field defaults. -/
structure RenderServiceConfig where
  outputDir : String := "./output"
  entryPoint : String := "./src/index.ts"
  concurrency : Option Nat := some 4
deriving DecidableEq

/-- The DEFAULT_CONFIG object. -/
def DEFAULT_CONFIG : RenderServiceConfig := {}

/-- The RenderService state: configuration, the queue, and the bundle
manager fields.  An in-flight or settled build promise is identified by
the index of the underlying builder invocation; `buildCount` counts those
invocations. -/
structure RenderService where
  config : RenderServiceConfig
  queue : RenderQueue
  bundleLocation : Option String
  bundlePromise : Option Nat
  buildCount : Nat
deriving DecidableEq

/-- The RenderService constructor: the queue gets
`config.concurrency || 2` as its cap and the bundle cache starts empty. -/
def RenderService.init (config : RenderServiceConfig) : RenderService :=
  { config := config
    queue := RenderQueue.empty (numOr config.concurrency 2)
    bundleLocation := none
    bundlePromise := none
    buildCount := 0 }

/-- What a single `getBundle()` call does before suspending: return the
cached location, await an existing in-flight or settled build, or start a
fresh builder invocation. -/
inductive GetBundleAction where
  | returnCached (loc : String)
  | awaitExisting (buildId : Nat)
  | startBuild (buildId : Nat)
deriving DecidableEq

/-- The synchronous part of `getBundle()`: checks the cached location,
then the memoized promise, and otherwise stores a fresh build promise. -/
def getBundleCall (s : RenderService) : RenderService × GetBundleAction :=
  match s.bundleLocation with
  | some loc => (s, .returnCached loc)
  | none =>
      match s.bundlePromise with
      | some pid => (s, .awaitExisting pid)
      | none =>
          ({ s with bundlePromise := some s.buildCount, buildCount := s.buildCount + 1 },
           .startBuild s.buildCount)

/-- The outcome of one builder invocation. -/
inductive BuildOutcome where
  | success (loc : String)
  | failure (err : String)
deriving DecidableEq

/-- What a caller awaiting a build promise receives when the build
settles. -/
def awaitOutcome : BuildOutcome → Except String String
  | .success loc => .ok loc
  | .failure e => .error e

/-- The continuation of the `getBundle()` call that created the build
promise: on success it stores the location in the cache; on failure the
exception propagates and neither cache field is cleared. -/
def resolveBuild (s : RenderService) (outcome : BuildOutcome) :
    RenderService × Except String String :=
  match outcome with
  | .success loc => ({ s with bundleLocation := some loc }, .ok loc)
  | .failure e => (s, .error e)

/-- `invalidateBundle()`: clears the cached location and the memoized
promise. -/
def invalidateBundle (s : RenderService) : RenderService :=
  { s with bundleLocation := none, bundlePromise := none }

/-! ## createJob and queue advancement -/

/-- `createJob(input)`: validates the composition identifier, resolves the
format, output path and defaulted duration, fps and quality, constructs
the job in `queued` state, adds it to the queue and immediately drains
the queue (fire-and-forget).  The generated job identifier, the short
random filename suffix and the creation timestamp come from the
environment. -/
def createJob (s : RenderService) (input : RenderJobInput)
    (genId : Nat) (uuid8 : String) (now : Nat) :
    Except String (RenderService × RenderJob) :=
  match COMPOSITIONS input.compositionId with
  | none => .error ("Unknown composition: " ++ input.compositionId)
  | some composition =>
      let format := input.format.getD .landscape
      let filename := strOr input.outputFilename
        (input.compositionId ++ "_" ++ uuid8 ++ ".mp4")
      let outputPath := pathJoin (strOr input.outputPath s.config.outputDir) filename
      let job : RenderJob :=
        { id := genId
          compositionId := input.compositionId
          inputProps := input.inputProps
          format := format
          duration := numOr input.duration composition.defaultDuration
          fps := numOr input.fps 30
          quality := input.quality.getD .standard
          outputFilename := input.outputFilename
          status := .queued
          progress := 0
          error := none
          outputPath := outputPath
          thumbnailPath := none
          createdAt := now
          startedAt := none
          completedAt := none }
      let q1 := s.queue.add job
      .ok ({ s with queue := (q1.processQueue).1 }, job)

/-- The operations of the claim about the concurrency bound, at the level
at which the service and the queue expose them. -/
inductive QueueOp where
  | createJob (input : RenderJobInput) (genId : Nat) (uuid8 : String) (now : Nat)
  | processQueue
  | dequeueCall
  | completeCall (jobId : Nat)
deriving DecidableEq

/-- One operation applied to the service state (validation failures leave
the state unchanged). -/
def stepOp (s : RenderService) (op : QueueOp) : RenderService :=
  match op with
  | .createJob input genId uuid8 now =>
      match createJob s input genId uuid8 now with
      | .ok (s2, _) => s2
      | .error _ => s
  | .processQueue => { s with queue := (s.queue.processQueue).1 }
  | .dequeueCall => { s with queue := (s.queue.dequeue).2 }
  | .completeCall jobId => { s with queue := s.queue.complete jobId }

/-- A sequence of operations applied in order. -/
def runOps (s : RenderService) (ops : List QueueOp) : RenderService :=
  ops.foldl stepOp s

/-! ## The per-job processor -/

/-- One invocation of the rendering-engine progress callback. -/
structure ProgressEvent where
  fraction : ℚ
  renderedFrames : Nat
  encodedFrames : Nat
deriving DecidableEq

/-- The environment behaviour observed by one `processJob` run: the
outcome of the awaited bundle, the progress callbacks the engine issues,
the outcome of the render, whether `renderStill` succeeded, whether the
thumbnail file exists afterwards, and the two timestamps taken. -/
structure JobRun where
  bundleResult : Except String String
  progressEvents : List ProgressEvent
  renderResult : Except String Unit
  thumbnailOk : Bool
  thumbnailExists : Bool
  startTime : Nat
  endTime : Nat

/-- The resolved fps at the render stage: `job.fps || 30`. -/
def renderFps (job : RenderJob) : Nat :=
  if job.fps = 0 then 30 else job.fps

/-- The resolved duration in seconds at the render stage:
`job.duration || 10`. -/
def renderDurationSec (job : RenderJob) : Nat :=
  if job.duration = 0 then 10 else job.duration

/-- `durationInFrames` as computed in `processJob`. -/
def durationInFrames (job : RenderJob) : Nat :=
  renderDurationSec job * renderFps job

/-- The thumbnail path: `outputPath.replace(/\.mp4$/, "_thumb.jpg")`. -/
def thumbPathOf (outputPath : String) : String :=
  if outputPath.endsWith ".mp4" then outputPath.dropRight 4 ++ "_thumb.jpg"
  else outputPath

/-- The first update of `processJob`: transition to `bundling` and stamp
`startedAt`. -/
def bundlingUpdate (t : Nat) : JobUpdate :=
  { status := some .bundling, startedAt := some t }

/-- The update issued after the bundle is acquired. -/
def renderingUpdate : JobUpdate :=
  { status := some .rendering }

/-- The update issued by the engine progress callback: `encoding` once
any frame has been encoded, otherwise `rendering`, with the rounded
percentage. -/
def progressUpdate (e : ProgressEvent) : JobUpdate :=
  { status := some (if 0 < e.encodedFrames then .encoding else .rendering)
    progress := some (jsRoundPct e.fraction) }

/-- The terminal update of a successful run. -/
def completionUpdate (outputPath : String) (thumbExists : Bool) (t : Nat) : JobUpdate :=
  { status := some .completed
    progress := some 100
    thumbnailPath := some (if thumbExists then some (thumbPathOf outputPath) else none)
    completedAt := some t }

/-- The terminal update of a failed run. -/
def failedUpdate (e : String) (t : Nat) : JobUpdate :=
  { status := some .failed, error := some e, completedAt := some t }

/-- The sequence of updates one `processJob` run applies to its job,
determined by the environment behaviour. -/
def processJobUpdates (job : RenderJob) (run : JobRun) : List JobUpdate :=
  bundlingUpdate run.startTime ::
    (match run.bundleResult with
     | .error e => [failedUpdate e run.endTime]
     | .ok _ =>
         renderingUpdate ::
           (run.progressEvents.map progressUpdate ++
             (match run.renderResult with
              | .error e => [failedUpdate e run.endTime]
              | .ok _ => [completionUpdate job.outputPath run.thumbnailExists run.endTime])))

/-- Every observable state of the job along a run: the state before the
first update and the state after each update. -/
def jobTrace (job : RenderJob) : List JobUpdate → List RenderJob
  | [] => [job]
  | u :: us => job :: jobTrace (applyUpdate job u) us

/-- The job record when the run has finished. -/
def processJobFinal (job : RenderJob) (run : JobRun) : RenderJob :=
  (processJobUpdates job run).foldl applyUpdate job

/-! ## Concrete fixtures used by scenario claims -/

/-- A freshly constructed service with the default configuration. -/
def serviceFresh : RenderService := RenderService.init DEFAULT_CONFIG

/-- A freshly constructed service with a concurrency cap of one. -/
def svcCap1 : RenderService :=
  RenderService.init { DEFAULT_CONFIG with concurrency := some 1 }

/-- A minimal valid request for the EventPromo composition. -/
def inputEP : RenderJobInput := { compositionId := "EventPromo" }

/-- A concrete queued job record used by queue-level scenarios. -/
def mkTestJob (jobId : Nat) : RenderJob :=
  { id := jobId
    compositionId := "EventPromo"
    inputProps := []
    format := .landscape
    duration := 10
    fps := 30
    quality := .standard
    outputFilename := none
    status := .queued
    progress := 0
    error := none
    outputPath := "./output/EventPromo_test0000.mp4"
    thumbnailPath := none
    createdAt := 0
    startedAt := none
    completedAt := none }

/-- The FIFO scenario: jobs 1, 2, 3 enqueued in that order into a queue
with a concurrency cap of one, the queue drained after each arrival and
after each completion; the result is the order in which processing
started. -/
def fifoStartOrder : List Nat :=
  let q0 := RenderQueue.empty 1
  let p1 := ((q0.add (mkTestJob 1)).processQueue)
  let p2 := ((p1.1.add (mkTestJob 2)).processQueue)
  let p3 := ((p2.1.add (mkTestJob 3)).processQueue)
  let p4 := ((p3.1.complete 1).processQueue)
  let p5 := ((p4.1.complete 2).processQueue)
  p1.2 ++ p2.2 ++ p3.2 ++ p4.2 ++ p5.2

/-- Two jobs created on a cap-one service followed by a bare `dequeue()`
call. -/
def capOps : List QueueOp :=
  [ .createJob inputEP 1 "aaaa0000" 0,
    .createJob inputEP 2 "bbbb0000" 0,
    .dequeueCall ]

/-- A number of consecutive `getBundle()` calls, none of which has seen
the build settle yet (they all run concurrently), with the action each
call takes. -/
def bundleCalls : Nat → RenderService → RenderService × List GetBundleAction
  | 0, s => (s, [])
  | Nat.succ n, s =>
      ((bundleCalls n (getBundleCall s).1).1,
       (getBundleCall s).2 :: (bundleCalls n (getBundleCall s).1).2)

/-- Whether a `getBundle()` call invoked the underlying builder. -/
def isStartBuild : GetBundleAction → Bool
  | .startBuild _ => true
  | _ => false

lemma getBundleCall_cached {s : RenderService} {loc : String}
    (h : s.bundleLocation = some loc) :
    getBundleCall s = (s, .returnCached loc) := by
  simp [getBundleCall, h]

lemma getBundleCall_inflight {s : RenderService} {pid : Nat}
    (h1 : s.bundleLocation = none) (h2 : s.bundlePromise = some pid) :
    getBundleCall s = (s, .awaitExisting pid) := by
  simp [getBundleCall, h1, h2]

lemma bundleCalls_inflight (pid n : Nat) :
    ∀ s : RenderService, s.bundleLocation = none → s.bundlePromise = some pid →
      bundleCalls n s = (s, List.replicate n (.awaitExisting pid)) := by
  induction n with
  | zero => intro s h1 h2; simp [bundleCalls]
  | succ n ih =>
      intro s h1 h2
      rw [bundleCalls, getBundleCall_inflight h1 h2]
      simp [ih s h1 h2, List.replicate_succ]

/-- Claim C3: getBundle returns the cached bundle location when one
exists; while a build is in flight every concurrent getBundle call awaits
that same in-flight build, so any number of consecutive calls from an
empty cache invokes the underlying builder exactly once; and after the
build completes the result is cached and returned to all subsequent
calls. -/
theorem getBundle_single_flight :
    (∀ (s : RenderService) (loc : String), s.bundleLocation = some loc →
        getBundleCall s = (s, .returnCached loc)) ∧
    (∀ (s : RenderService) (pid : Nat),
        s.bundleLocation = none → s.bundlePromise = some pid →
        getBundleCall s = (s, .awaitExisting pid)) ∧
    (∀ (n : Nat) (s : RenderService),
        s.bundleLocation = none → s.bundlePromise = none →
        ((bundleCalls (n + 1) s).2.filter isStartBuild).length = 1) ∧
    (∀ (s : RenderService) (loc : String),
        (resolveBuild s (.success loc)).2 = .ok loc ∧
        getBundleCall (resolveBuild s (.success loc)).1 =
          ((resolveBuild s (.success loc)).1, .returnCached loc)) := by
  refine ⟨fun s loc h => getBundleCall_cached h,
    fun s pid h1 h2 => getBundleCall_inflight h1 h2, ?_, ?_⟩
  · intro n s h1 h2
    have hcall : getBundleCall s =
        ({ s with bundlePromise := some s.buildCount, buildCount := s.buildCount + 1 },
         .startBuild s.buildCount) := by
      simp [getBundleCall, h1, h2]
    rw [bundleCalls, hcall]
    rw [bundleCalls_inflight s.buildCount n _ (by simp [h1]) rfl]
    simp [isStartBuild, List.filter_replicate]
  · intro s loc
    refine ⟨rfl, ?_⟩
    exact getBundleCall_cached (by simp [resolveBuild])

/-- Witness for C3 at concrete states: a cached location is returned and
three calls from an empty cache start exactly one build. -/
theorem getBundle_single_flight_witness :
    getBundleCall { serviceFresh with bundleLocation := some "loc" } =
      ({ serviceFresh with bundleLocation := some "loc" }, .returnCached "loc") ∧
    getBundleCall { serviceFresh with bundlePromise := some 0 } =
      ({ serviceFresh with bundlePromise := some 0 }, .awaitExisting 0) ∧
    ((bundleCalls 3 serviceFresh).2.filter isStartBuild).length = 1 ∧
    getBundleCall (resolveBuild serviceFresh (.success "loc")).1 =
      ((resolveBuild serviceFresh (.success "loc")).1, .returnCached "loc") :=
  ⟨getBundle_single_flight.1 _ "loc" rfl,
   getBundle_single_flight.2.1 _ 0 rfl rfl,
   getBundle_single_flight.2.2.1 2 serviceFresh rfl rfl,
   (getBundle_single_flight.2.2.2 serviceFresh "loc").2⟩

/-- Counterexample to claim C1: starting from a fresh service, the first
getBundle call starts build 0; when that build fails, the memoized
promise is not cleared, so the next getBundle call awaits the same failed
build 0 instead of starting a fresh build (the build count stays at one),
and awaiting the settled failed promise yields the cached failure. -/
theorem bundle_failure_poisons_counterexample :
    (getBundleCall (resolveBuild (getBundleCall serviceFresh).1 (.failure "boom")).1).2 =
      .awaitExisting 0 ∧
    (getBundleCall (resolveBuild (getBundleCall serviceFresh).1 (.failure "boom")).1).1.buildCount = 1 ∧
    awaitOutcome (.failure "boom") = .error "boom" := by
  decide

/-- Claim C1 as amended: a build failure propagates to the caller that
started the build and to every concurrent caller awaiting it, but the
failed promise stays memoized: a subsequent getBundle call returns the
same cached failed build rather than starting a fresh one, until
invalidateBundle clears the cache, after which the next call starts a
fresh build. -/
theorem bundle_failure_propagation_amended (s : RenderService) (e : String)
    (h1 : s.bundleLocation = none) (h2 : s.bundlePromise = none) :
    (resolveBuild (getBundleCall s).1 (.failure e)).2 = .error e ∧
    awaitOutcome (.failure e) = .error e ∧
    getBundleCall (resolveBuild (getBundleCall s).1 (.failure e)).1 =
      ((resolveBuild (getBundleCall s).1 (.failure e)).1, .awaitExisting s.buildCount) ∧
    (resolveBuild (getBundleCall s).1 (.failure e)).1.buildCount = s.buildCount + 1 ∧
    (getBundleCall (invalidateBundle (resolveBuild (getBundleCall s).1 (.failure e)).1)).2 =
      .startBuild (s.buildCount + 1) := by
  simp [getBundleCall, resolveBuild, invalidateBundle, awaitOutcome, h1, h2]

/-- Witness for the amended C1 at a fresh service. -/
theorem bundle_failure_propagation_amended_witness :
    (resolveBuild (getBundleCall serviceFresh).1 (.failure "boom")).2 = .error "boom" ∧
    awaitOutcome (.failure "boom") = .error "boom" ∧
    getBundleCall (resolveBuild (getBundleCall serviceFresh).1 (.failure "boom")).1 =
      ((resolveBuild (getBundleCall serviceFresh).1 (.failure "boom")).1, .awaitExisting 0) ∧
    (resolveBuild (getBundleCall serviceFresh).1 (.failure "boom")).1.buildCount = 1 ∧
    (getBundleCall (invalidateBundle (resolveBuild (getBundleCall serviceFresh).1 (.failure "boom")).1)).2 =
      .startBuild 1 :=
  bundle_failure_propagation_amended serviceFresh "boom" rfl rfl

/-! ## Association-list and listener lemmas -/

lemma alistGet_set {α : Type} (l : List (Nat × α)) (k : Nat) (v : α) :
    alistGet (alistSet l k v) k = some v := by
  induction l with
  | nil => simp [alistSet, alistGet]
  | cons p rest ih =>
      rcases p with ⟨k2, w⟩
      by_cases hk : k2 = k <;> simp [alistSet, alistGet, hk, ih]

lemma unsubOnce_not_mem (l : List Nat) (cb : Nat) (h : cb ∉ l) : unsubOnce l cb = l := by
  induction l with
  | nil => rfl
  | cons c rest ih =>
      simp at h
      simp [unsubOnce, Ne.symm h.1, ih h.2]

lemma listenersOf_subscribe (q : RenderQueue) (jid cb : Nat) :
    listenersOf (q.subscribeOp jid cb) jid = listenersOf q jid ++ [cb] := by
  simp [RenderQueue.subscribeOp, listenersOf, alistGet_set]

lemma listenersOf_unsubscribe (q : RenderQueue) (jid cb : Nat) :
    listenersOf (q.unsubscribeOp jid cb) jid = unsubOnce (listenersOf q jid) cb := by
  unfold RenderQueue.unsubscribeOp
  cases hg : alistGet q.listeners jid with
  | none => simp [listenersOf, hg, unsubOnce]
  | some l => simp [listenersOf, hg, alistGet_set]

/-- Claim C4: add appends the job identifier to the back of the pending
list without touching the processing set; dequeue removes the oldest
pending identifier, moves it into the processing set and returns the job
stored under that identifier; and in the concrete scenario where jobs 1,
2, 3 are enqueued in that order under a concurrency cap of one, they
begin processing in the order 1, 2, 3. -/
theorem fifo_admission :
    (∀ (q : RenderQueue) (job : RenderJob),
        (q.add job).queue = q.queue ++ [job.id] ∧
        (q.add job).processing = q.processing) ∧
    (∀ (q : RenderQueue) (jid : Nat) (rest : List Nat), q.queue = jid :: rest →
        (q.dequeue).1 = q.get jid ∧
        (q.dequeue).2.queue = rest ∧
        (q.dequeue).2.processing = setAdd q.processing jid) ∧
    fifoStartOrder = [1, 2, 3] := by
  refine ⟨fun q job => ⟨rfl, rfl⟩, ?_, by decide⟩
  intro q jid rest h
  simp [RenderQueue.dequeue, RenderQueue.get, h]

/-- Witness for C4: dequeueing from a freshly filled queue pops job 1. -/
theorem fifo_admission_witness :
    (((RenderQueue.empty 2).add (mkTestJob 1)).dequeue).1 =
      ((RenderQueue.empty 2).add (mkTestJob 1)).get 1 ∧
    (((RenderQueue.empty 2).add (mkTestJob 1)).dequeue).2.queue = [] ∧
    (((RenderQueue.empty 2).add (mkTestJob 1)).dequeue).2.processing = setAdd [] 1 :=
  fifo_admission.2.1 _ 1 [] rfl

/-- Claim C6: createJob with an unknown composition identifier raises the
validation error before the job enters the queue: the call returns the
error and the whole service state, in particular the job map, the pending
list and the processing set, is unchanged. -/
theorem unknown_composition_rejected (s : RenderService) (input : RenderJobInput)
    (genId : Nat) (uuid8 : String) (now : Nat)
    (h : COMPOSITIONS input.compositionId = none) :
    createJob s input genId uuid8 now =
      .error ("Unknown composition: " ++ input.compositionId) ∧
    stepOp s (.createJob input genId uuid8 now) = s := by
  have hc : createJob s input genId uuid8 now =
      .error ("Unknown composition: " ++ input.compositionId) := by
    unfold createJob
    rw [h]
  exact ⟨hc, by simp [stepOp, hc]⟩

/-- Witness for C6 at a concrete unknown composition identifier. -/
theorem unknown_composition_rejected_witness :
    createJob serviceFresh { compositionId := "NoSuchComposition" } 1 "abcd1234" 0 =
      .error ("Unknown composition: " ++ "NoSuchComposition") ∧
    stepOp serviceFresh (.createJob { compositionId := "NoSuchComposition" } 1 "abcd1234" 0) =
      serviceFresh :=
  unknown_composition_rejected serviceFresh { compositionId := "NoSuchComposition" }
    1 "abcd1234" 0 (by decide)

/-- Claim C7: a createJob request for composition EventPromo with format
landscape and the duration unset resolves to a job whose format maps to
1920 by 1080 pixels, whose duration is the 10 second default duration of
the composition, and whose initial status is queued. -/
theorem eventpromo_landscape_scenario :
    ((createJob serviceFresh { compositionId := "EventPromo", format := some .landscape }
        1 "abcd1234" 0).map
      (fun r => ((DIMENSIONS r.2.format).width, (DIMENSIONS r.2.format).height,
                 r.2.duration, r.2.status))) =
      .ok (1920, 1080, 10, .queued) ∧
    (COMPOSITIONS "EventPromo").map (fun c => c.defaultDuration) = some 10 := by
  decide

/-- Counterexample to claim C8: subscribing the same callback handle
twice and then calling the unsubscribe closure twice removes both
subscriptions: the second call is not an idempotent no-op and does not
leave the second subscription active. -/
theorem unsubscribe_double_counterexample :
    listenersOf ((((RenderQueue.empty 2).subscribeOp 1 5).subscribeOp 1 5).unsubscribeOp 1 5) 1 =
      [5] ∧
    listenersOf (((((RenderQueue.empty 2).subscribeOp 1 5).subscribeOp 1 5).unsubscribeOp 1 5).unsubscribeOp 1 5) 1 =
      [] := by
  decide

/-- Claim C8 as amended: the unsubscribe closure removes the first
occurrence of the callback from the listener list and is a no-op when the
callback is absent; after subscribing the same callback twice, one
unsubscribe call leaves the second subscription active, but a further
call to the same closure removes the remaining subscription as well
(idempotence holds only once the callback is completely absent). -/
theorem unsubscribe_amended :
    (∀ (l : List Nat) (cb : Nat), cb ∉ l → unsubOnce l cb = l) ∧
    (∀ (q : RenderQueue) (jid cb : Nat),
        listenersOf (q.subscribeOp jid cb) jid = listenersOf q jid ++ [cb]) ∧
    (∀ (q : RenderQueue) (jid cb : Nat),
        listenersOf (q.unsubscribeOp jid cb) jid = unsubOnce (listenersOf q jid) cb) ∧
    (∀ (q : RenderQueue) (jid cb : Nat), listenersOf q jid = [] →
        listenersOf (((q.subscribeOp jid cb).subscribeOp jid cb).unsubscribeOp jid cb) jid =
          [cb] ∧
        listenersOf ((((q.subscribeOp jid cb).subscribeOp jid cb).unsubscribeOp jid cb).unsubscribeOp jid cb) jid =
          []) := by
  refine ⟨unsubOnce_not_mem, listenersOf_subscribe, listenersOf_unsubscribe, ?_⟩
  intro q jid cb h
  have h2 : listenersOf ((q.subscribeOp jid cb).subscribeOp jid cb) jid = [cb, cb] := by
    rw [listenersOf_subscribe, listenersOf_subscribe, h]
    rfl
  have h3 : listenersOf (((q.subscribeOp jid cb).subscribeOp jid cb).unsubscribeOp jid cb) jid =
      [cb] := by
    rw [listenersOf_unsubscribe, h2]
    simp [unsubOnce]
  refine ⟨h3, ?_⟩
  rw [listenersOf_unsubscribe, h3]
  simp [unsubOnce]

/-- Witness for the amended C8 at concrete handles. -/
theorem unsubscribe_amended_witness :
    unsubOnce [7] 5 = [7] ∧
    listenersOf ((RenderQueue.empty 2).subscribeOp 1 5) 1 =
      listenersOf (RenderQueue.empty 2) 1 ++ [5] ∧
    listenersOf ((RenderQueue.empty 2).unsubscribeOp 1 5) 1 =
      unsubOnce (listenersOf (RenderQueue.empty 2) 1) 5 ∧
    listenersOf ((((RenderQueue.empty 2).subscribeOp 1 5).subscribeOp 1 5).unsubscribeOp 1 5) 1 =
      [5] :=
  ⟨unsubscribe_amended.1 [7] 5 (by decide),
   unsubscribe_amended.2.1 (RenderQueue.empty 2) 1 5,
   unsubscribe_amended.2.2.1 (RenderQueue.empty 2) 1 5,
   (unsubscribe_amended.2.2.2 (RenderQueue.empty 2) 1 5 rfl).1⟩

/-! ## Defaulting lemmas and the render-stage resolution -/

lemma numOr_ne_zero (v : Option Nat) (d : Nat) (hd : d ≠ 0) : numOr v d ≠ 0 := by
  cases v with
  | none => simpa [numOr] using hd
  | some n => by_cases hn : n = 0 <;> simp [numOr, hn, hd]

lemma COMPOSITIONS_defaultDuration_ne_zero {cid : String} {comp : CompositionMeta}
    (h : COMPOSITIONS cid = some comp) : comp.defaultDuration ≠ 0 := by
  have hall : ∀ p ∈ COMPOSITIONS_list, p.2.defaultDuration ≠ 0 := by decide
  unfold COMPOSITIONS at h
  cases hf : COMPOSITIONS_list.find? (fun p => p.1 == cid) with
  | none => rw [hf] at h; simp at h
  | some p =>
      rw [hf] at h
      simp at h
      rw [← h]
      exact hall p (List.mem_of_find?_eq_some hf)

/-- Claim C10: createJob applies defaults to falsy values, not only to
absent ones: a request with duration explicitly 0 produces a job with the
default duration of the composition, a request with fps explicitly 0
produces a job with fps 30; consequently the created job never carries a
zero duration or fps, and the render-stage resolution returns exactly the
job fields, so an explicit 0 can never reach the render stage. -/
theorem falsy_defaults (s s2 : RenderService) (input : RenderJobInput)
    (genId : Nat) (uuid8 : String) (now : Nat) (job : RenderJob)
    (comp : CompositionMeta)
    (hc : COMPOSITIONS input.compositionId = some comp)
    (h : createJob s input genId uuid8 now = .ok (s2, job)) :
    (input.duration = some 0 → job.duration = comp.defaultDuration) ∧
    (input.fps = some 0 → job.fps = 30) ∧
    job.duration ≠ 0 ∧ job.fps ≠ 0 ∧
    renderFps job = job.fps ∧ renderDurationSec job = job.duration := by
  unfold createJob at h
  rw [hc] at h
  simp only [Except.ok.injEq, Prod.mk.injEq] at h
  obtain ⟨-, hj⟩ := h
  subst hj
  have hdur : numOr input.duration comp.defaultDuration ≠ 0 :=
    numOr_ne_zero _ _ (COMPOSITIONS_defaultDuration_ne_zero hc)
  have hfps : numOr input.fps 30 ≠ 0 := numOr_ne_zero _ _ (by decide)
  refine ⟨?_, ?_, hdur, hfps, ?_, ?_⟩
  · intro hd; simp [hd, numOr]
  · intro hf; simp [hf, numOr]
  · simp [renderFps, hfps]
  · simp [renderDurationSec, hdur]

/-- A request with duration and fps explicitly zero. -/
def inputZero : RenderJobInput :=
  { compositionId := "EventPromo", duration := some 0, fps := some 0 }

/-- The service state after creating the zero-request job. -/
def svcZero : RenderService :=
  match createJob serviceFresh inputZero 1 "abcd1234" 0 with
  | .ok (s, _) => s
  | .error _ => serviceFresh

/-- The job created from the zero request. -/
def jobZero : RenderJob :=
  match createJob serviceFresh inputZero 1 "abcd1234" 0 with
  | .ok (_, j) => j
  | .error _ => mkTestJob 0

/-- Witness for C10: the explicit zeros are replaced by the defaults. -/
theorem falsy_defaults_witness :
    inputZero.duration = some 0 ∧ inputZero.fps = some 0 ∧
    jobZero.duration = 10 ∧ jobZero.fps = 30 ∧
    renderFps jobZero = jobZero.fps ∧ renderDurationSec jobZero = jobZero.duration := by
  have hc : COMPOSITIONS inputZero.compositionId =
      some ⟨"EventPromo", "Event Promo", "Single event spotlight with animated details",
        "promo", 10, ["event"], ["landscape", "portrait", "square"]⟩ := by decide
  have h : createJob serviceFresh inputZero 1 "abcd1234" 0 = .ok (svcZero, jobZero) := by
    rfl
  have hr := falsy_defaults serviceFresh svcZero inputZero 1 "abcd1234" 0 jobZero _ hc h
  exact ⟨rfl, rfl, hr.1 rfl, hr.2.1 rfl, hr.2.2.2.2.1, hr.2.2.2.2.2⟩

/-! ## Per-job run lemmas -/

lemma foldl_progress_error (evs : List ProgressEvent) :
    ∀ j : RenderJob, ((evs.map progressUpdate).foldl applyUpdate j).error = j.error := by
  induction evs with
  | nil => intro j; rfl
  | cons e es ih =>
      intro j
      simp only [List.map_cons, List.foldl_cons, ih]
      simp [applyUpdate, progressUpdate]

/-- Claim C9: when the bundle is acquired and the render succeeds, the
job reaches completed with progress 100 and no error even if thumbnail
generation failed; only the thumbnail path may be absent, exactly when
the thumbnail file does not exist. -/
theorem thumbnail_failure_swallowed (job : RenderJob) (run : JobRun) (loc : String)
    (hb : run.bundleResult = .ok loc) (hr : run.renderResult = .ok ())
    (_ht : run.thumbnailOk = false) (he : job.error = none) :
    (processJobFinal job run).status = .completed ∧
    (processJobFinal job run).progress = 100 ∧
    (processJobFinal job run).error = none ∧
    (processJobFinal job run).thumbnailPath =
      (if run.thumbnailExists then some (thumbPathOf job.outputPath) else none) := by
  unfold processJobFinal processJobUpdates
  rw [hb, hr]
  simp only [List.foldl_cons, List.foldl_append]
  refine ⟨by simp [applyUpdate, completionUpdate], by simp [applyUpdate, completionUpdate],
    ?_, by simp [applyUpdate, completionUpdate]⟩
  simp only [List.foldl_cons, List.foldl_nil]
  simp [applyUpdate, completionUpdate, foldl_progress_error, bundlingUpdate, renderingUpdate, he]

/-- A run with one progress event, a successful render and a failing
thumbnail step whose file does not exist. -/
def runThumbFail : JobRun :=
  { bundleResult := .ok "bundleLoc"
    progressEvents := []
    renderResult := .ok ()
    thumbnailOk := false
    thumbnailExists := false
    startTime := 0
    endTime := 1 }

/-- Witness for C9 on a concrete run. -/
theorem thumbnail_failure_swallowed_witness :
    (processJobFinal (mkTestJob 9) runThumbFail).status = .completed ∧
    (processJobFinal (mkTestJob 9) runThumbFail).progress = 100 ∧
    (processJobFinal (mkTestJob 9) runThumbFail).error = none ∧
    (processJobFinal (mkTestJob 9) runThumbFail).thumbnailPath =
      (if runThumbFail.thumbnailExists then some (thumbPathOf (mkTestJob 9).outputPath)
       else none) :=
  thumbnail_failure_swallowed (mkTestJob 9) runThumbFail "bundleLoc" rfl rfl rfl rfl

/-! ## Progress and status along a run -/

lemma jsRoundPct_one : jsRoundPct 1 = 100 := by
  have h : (1 : ℚ) * 100 + 1/2 = 100 + 1/2 := by norm_num
  rw [jsRoundPct, h]
  rw [Int.floor_eq_iff]
  constructor <;> norm_num

/-- A run in which the engine reports fraction 1 while frames are being
encoded. -/
def runEnc : JobRun :=
  { bundleResult := .ok "bundleLoc"
    progressEvents := [⟨1, 300, 40⟩]
    renderResult := .ok ()
    thumbnailOk := true
    thumbnailExists := true
    startTime := 5
    endTime := 9 }

/-- Counterexample to claim C5: when the engine progress callback reports
fraction 1 with encoded frames outstanding, the observable job state has
progress 100 while its status is still encoding, so progress 100 does not
imply status completed. -/
theorem progress_hundred_counterexample :
    ((jobTrace (mkTestJob 7) (processJobUpdates (mkTestJob 7) runEnc)).get? 3).map
        (fun j => (j.status, j.progress)) = some (.encoding, 100) ∧
    RenderStatus.encoding ≠ RenderStatus.completed := by
  constructor
  · simp [processJobUpdates, runEnc, jobTrace, applyUpdate, bundlingUpdate,
      renderingUpdate, progressUpdate, completionUpdate, mkTestJob, jsRoundPct_one]
  · decide

lemma mem_jobTrace (us : List JobUpdate) : ∀ (job s : RenderJob), s ∈ jobTrace job us →
    s = job ∨ ∃ (j : RenderJob) (u : JobUpdate), u ∈ us ∧ s = applyUpdate j u := by
  induction us with
  | nil =>
      intro job s h
      simp [jobTrace] at h
      exact Or.inl h
  | cons u us ih =>
      intro job s h
      simp only [jobTrace, List.mem_cons] at h
      rcases h with h | h
      · exact Or.inl h
      · rcases ih (applyUpdate job u) s h with h2 | ⟨j, u2, hu, hs⟩
        · exact Or.inr ⟨job, u, by simp, h2⟩
        · exact Or.inr ⟨j, u2, by simp [hu], hs⟩

lemma processJobUpdates_completed_progress (job : RenderJob) (run : JobRun) :
    ∀ u ∈ processJobUpdates job run, ∀ j : RenderJob,
      (applyUpdate j u).status = .completed → (applyUpdate j u).progress = 100 := by
  intro u hu j
  unfold processJobUpdates at hu
  rcases hrb : run.bundleResult with e | l <;> rw [hrb] at hu
  · simp at hu
    rcases hu with rfl | rfl <;>
      simp [applyUpdate, bundlingUpdate, failedUpdate]
  · rcases hrr : run.renderResult with e | u2 <;> rw [hrr] at hu <;>
      simp [List.mem_append, List.mem_map] at hu <;>
      [rcases hu with rfl | rfl | ⟨e2, _, rfl⟩ | rfl;
       rcases hu with rfl | rfl | ⟨e2, _, rfl⟩ | rfl] <;>
      simp [applyUpdate, bundlingUpdate, renderingUpdate, failedUpdate, completionUpdate,
        progressUpdate] <;>
      split <;> simp

/-- Claim C5 as amended: at every observable instant of a processJob run
on a job that starts queued, status completed implies progress 100; the
converse direction of the original claim fails because an engine progress
callback can set progress 100 while the status is still rendering or
encoding. -/
theorem completed_implies_progress_amended (job : RenderJob) (run : JobRun) (s : RenderJob)
    (hq : job.status = .queued)
    (hs : s ∈ jobTrace job (processJobUpdates job run)) :
    s.status = .completed → s.progress = 100 := by
  rcases mem_jobTrace _ _ _ hs with rfl | ⟨j, u, hu, rfl⟩
  · rw [hq]; intro h; cases h
  · exact processJobUpdates_completed_progress job run u hu j

/-- A run with no progress events that completes successfully. -/
def runPlain : JobRun :=
  { bundleResult := .ok "bundleLoc"
    progressEvents := []
    renderResult := .ok ()
    thumbnailOk := true
    thumbnailExists := false
    startTime := 0
    endTime := 1 }

/-- Witness for the amended C5 at the final state of a successful run:
that state is completed, so the theorem forces its progress to be 100. -/
theorem completed_implies_progress_amended_witness :
    (processJobFinal (mkTestJob 8) runPlain).progress = 100 := by
  have hmem : processJobFinal (mkTestJob 8) runPlain ∈
      jobTrace (mkTestJob 8) (processJobUpdates (mkTestJob 8) runPlain) := by decide
  exact completed_implies_progress_amended (mkTestJob 8) runPlain _ rfl hmem (by decide)

/-! ## Concurrency cap -/

lemma setAdd_length_le (l : List Nat) (x : Nat) : (setAdd l x).length ≤ l.length + 1 := by
  unfold setAdd
  split <;> simp

lemma dequeue_processing_le (q : RenderQueue) :
    (q.dequeue).2.processing.length ≤ q.processing.length + 1 := by
  cases hq : q.queue with
  | nil => simp [RenderQueue.dequeue, hq]
  | cons a rest => simp [RenderQueue.dequeue, hq, setAdd_length_le]

lemma dequeue_maxConcurrent (q : RenderQueue) :
    (q.dequeue).2.maxConcurrent = q.maxConcurrent := by
  cases hq : q.queue with
  | nil => simp [RenderQueue.dequeue, hq]
  | cons a rest => simp [RenderQueue.dequeue, hq]

lemma canProcess_lt {q : RenderQueue} (h : q.canProcess = true) :
    q.processing.length < q.maxConcurrent := by
  simp [RenderQueue.canProcess] at h
  exact h.1

lemma drain_maxConcurrent (n : Nat) :
    ∀ q : RenderQueue, (drain n q).1.maxConcurrent = q.maxConcurrent := by
  induction n with
  | zero => intro q; rfl
  | succ n ih =>
      intro q
      by_cases hc : q.canProcess = true
      · rcases hd : q.dequeue with ⟨jo, q2⟩
        have hm : q2.maxConcurrent = q.maxConcurrent := by
          have := dequeue_maxConcurrent q
          rw [hd] at this
          exact this
        cases jo with
        | none => simp [drain, hc, hd, hm]
        | some job => simp [drain, hc, hd, ih q2, hm]
      · simp [drain, hc]

lemma drain_cap (n : Nat) :
    ∀ q : RenderQueue, q.processing.length ≤ q.maxConcurrent →
      (drain n q).1.processing.length ≤ q.maxConcurrent := by
  induction n with
  | zero => intro q h; exact h
  | succ n ih =>
      intro q h
      by_cases hc : q.canProcess = true
      · have hlt := canProcess_lt hc
        rcases hd : q.dequeue with ⟨jo, q2⟩
        have hp : q2.processing.length ≤ q.processing.length + 1 := by
          have := dequeue_processing_le q
          rw [hd] at this
          exact this
        have hm : q2.maxConcurrent = q.maxConcurrent := by
          have := dequeue_maxConcurrent q
          rw [hd] at this
          exact this
        cases jo with
        | none => simp [drain, hc, hd]; omega
        | some job =>
            simp only [drain, hc, if_true, hd]
            have := ih q2 (by omega)
            omega
      · simp [drain, hc]
        exact h

lemma createJob_ok_queue {s s2 : RenderService} {input : RenderJobInput}
    {genId : Nat} {uuid8 : String} {now : Nat} {job : RenderJob}
    (h : createJob s input genId uuid8 now = .ok (s2, job)) :
    s2.queue.maxConcurrent = s.queue.maxConcurrent ∧
    (s.queue.processing.length ≤ s.queue.maxConcurrent →
      s2.queue.processing.length ≤ s2.queue.maxConcurrent) := by
  unfold createJob at h
  cases hc : COMPOSITIONS input.compositionId with
  | none => rw [hc] at h; cases h
  | some comp =>
      rw [hc] at h
      simp only [Except.ok.injEq, Prod.mk.injEq] at h
      obtain ⟨hs, -⟩ := h
      subst hs
      constructor
      · simp only [RenderQueue.processQueue]
        rw [drain_maxConcurrent]
        rfl
      · intro hcap
        simp only [RenderQueue.processQueue]
        rw [drain_maxConcurrent]
        exact drain_cap _ _ hcap

lemma stepOp_cap {s : RenderService} {op : QueueOp} (hop : op ≠ QueueOp.dequeueCall)
    (h : s.queue.processing.length ≤ s.queue.maxConcurrent) :
    (stepOp s op).queue.processing.length ≤ (stepOp s op).queue.maxConcurrent := by
  cases op with
  | createJob input genId uuid8 now =>
      cases hres : createJob s input genId uuid8 now with
      | ok p =>
          rcases p with ⟨s2, job⟩
          simp only [stepOp, hres]
          exact (createJob_ok_queue hres).2 h
      | error e => simp only [stepOp, hres]; exact h
  | processQueue =>
      simp only [stepOp, RenderQueue.processQueue]
      rw [drain_maxConcurrent]
      exact drain_cap _ _ h
  | dequeueCall => exact absurd rfl hop
  | completeCall jobId =>
      simp only [stepOp, RenderQueue.complete]
      calc (setDelete s.queue.processing jobId).length
          ≤ s.queue.processing.length := List.length_filter_le _ _
        _ ≤ s.queue.maxConcurrent := h

/-- Counterexample to claim C2: on a cap-one service, two createJob calls
followed by a bare dequeue call (one of the four operations the claim
quantifies over) leave two identifiers in the processing set, exceeding
maxConcurrent. -/
theorem concurrency_cap_counterexample :
    (runOps svcCap1 capOps).queue.maxConcurrent = 1 ∧
    (runOps svcCap1 capOps).queue.processing.length = 2 ∧
    ¬((runOps svcCap1 capOps).queue.processing.length ≤
        (runOps svcCap1 capOps).queue.maxConcurrent) := by
  decide

/-- Claim C2 as amended: in every state reachable by createJob,
processQueue and complete operations — that is, when dequeue is invoked
only inside the canProcess-guarded processQueue loop, as the service
does — the size of the processing set never exceeds maxConcurrent;
a bare dequeue call when the set is full can exceed the cap. -/
theorem concurrency_cap_amended (s0 : RenderService) (ops : List QueueOp)
    (h0 : s0.queue.processing.length ≤ s0.queue.maxConcurrent)
    (hops : ∀ op ∈ ops, op ≠ QueueOp.dequeueCall) :
    (runOps s0 ops).queue.processing.length ≤ (runOps s0 ops).queue.maxConcurrent := by
  induction ops generalizing s0 with
  | nil => exact h0
  | cons op ops ih =>
      have h1 := stepOp_cap (hops op (by simp)) h0
      exact ih (stepOp s0 op) h1 (fun o ho => hops o (by simp [ho]))

/-- Witness for the amended C2: three jobs created on a cap-one service
with a completion and a drain in between never exceed the cap. -/
theorem concurrency_cap_amended_witness :
    (runOps svcCap1
      [ .createJob inputEP 1 "aaaa0000" 0, .createJob inputEP 2 "bbbb0000" 0,
        .createJob inputEP 3 "cccc0000" 0, .completeCall 1, .processQueue,
        .completeCall 2, .processQueue ]).queue.processing.length ≤
      (runOps svcCap1
        [ .createJob inputEP 1 "aaaa0000" 0, .createJob inputEP 2 "bbbb0000" 0,
          .createJob inputEP 3 "cccc0000" 0, .completeCall 1, .processQueue,
          .completeCall 2, .processQueue ]).queue.maxConcurrent :=
  concurrency_cap_amended svcCap1 _ (by decide) (by decide)

end RenderFlow
